import Mathlib

/-!
GeoFlow Tracker: shallow embedding and verification.

A shallow embedding of `src/app.js` (class `GeoFlowTracker`), the single
source file of the repository, together with proofs settling the frozen
claims about it.

Modelling conventions:
* The mutable `this.state` object, the provider subscription handle
  (`this.watchId`) and the browser `localStorage` are gathered into one
  `AppState` record.  The provider side is tracked by the
  `liveWatches` field (the handles currently registered with the provider)
  so that "at most one live subscription" is expressible.
* `fetch` results are external inputs: each operation that awaits a fetch
  takes the outcome (2xx with a parse result, non-2xx status, or a thrown
  network error) as an explicit argument.
* JavaScript numbers carried by location samples are modelled by `Rat`
  (no arithmetic is ever performed on them); instants produced by
  `new Date()` are modelled by an explicit `now : String` argument, one
  per synchronous handler invocation.
* DOM reads/writes (`document.getElementById`, button enabling, the modal)
  are pure UI glue and are not modelled, except for the debug messages the
  corresponding code paths emit.
-/

/-- Severity levels used by `setStatus`/`debug` in `app.js`. -/
inductive Severity where
  | info | success | warning | error | system
deriving DecidableEq, Repr

/-- One entry of `this.state.debugLogs`: `{ message, type, timestamp }`
(see `debug`, app.js line 555). -/
structure DebugEntry where
  message : String
  type : Severity
  timestamp : String
deriving DecidableEq, Repr

/-- The raw coordinate payload of a provider callback
(`position.coords`, app.js line 384).  `altitude`, `heading` and `speed`
are nullable in the Geolocation API. -/
structure Coords where
  latitude : Rat
  longitude : Rat
  accuracy : Rat
  altitude : Option Rat
  heading : Option Rat
  speed : Option Rat
deriving DecidableEq, Repr

/-- The normalized sample built by `onLocationSuccess`
(app.js lines 387–395): coordinates plus a capture timestamp. -/
structure LocationData where
  latitude : Rat
  longitude : Rat
  accuracy : Rat
  altitude : Option Rat
  heading : Option Rat
  speed : Option Rat
  timestamp : String
deriving DecidableEq, Repr

/-- The JSON payload object built by `sendToBackend`
(app.js lines 435–441).  `user_id` is `this.state.userId`, which is
`null` until an identity is accepted. -/
structure Payload where
  user_id : Option String
  latitude : Rat
  longitude : Rat
  accuracy : Rat
  timestamp : String
deriving DecidableEq, Repr

/-- A JSON value as it appears in a serialized request body: enough to
describe the object literals the app transmits. -/
inductive JVal where
  | s (v : String)
  | num (v : Rat)
  | null
deriving DecidableEq, Repr

/-- Model of `localStorage`: a string-keyed, string-valued store.  Writes are
modelled by consing; reads take the most recent binding. -/
def Storage : Type := List (String × String)

/-- Lookup modelling `localStorage.getItem`: most recent binding for `k`, if any. -/
def Storage.getItem (s : Storage) (k : String) : Option String :=
  (List.find? (fun p => p.1 = k) s).map (·.2)

/-- Write modelling `localStorage.setItem`. -/
def Storage.setItem (s : Storage) (k v : String) : Storage :=
  (k, v) :: s

/-- Model of the platform `parseInt` restricted to the decimal strings
this app ever stores in `session_count_*` slots (a non-numeric string,
which the app never writes there, parses to 0 rather than NaN). -/
def parseIntD (s : String) : Nat :=
  (s.toNat?).getD 0

/-- Strip leading and trailing whitespace from a character list. -/
def trimChars (l : List Char) : List Char :=
  ((l.dropWhile Char.isWhitespace).reverse.dropWhile Char.isWhitespace).reverse

/-- Model of the platform `JSON.parse(s).length` for a string expected to
hold a JSON array (the `tracking_data_*` slots read at app.js line 259):
counts the top-level elements of the array literal. -/
def jsonArrayLen (s : String) : Nat :=
  match trimChars s.data with
  | '[' :: rest =>
      if rest.getLast? = some ']' then
        let inner := trimChars rest.dropLast
        if inner.isEmpty then 0
        else
          1 + (inner.foldl
            (fun (acc : Nat × Nat) c =>
              if c = '[' ∨ c = '{' then (acc.1, acc.2 + 1)
              else if c = ']' ∨ c = '}' then (acc.1, acc.2 - 1)
              else if c = ',' ∧ acc.2 = 0 then (acc.1 + 1, acc.2)
              else acc) (0, 0)).1
      else 0
  | _ => 0

/-- The whole application state: the fields of `this.state`
(app.js lines 21–31), the subscription handle `this.watchId`, the
`localStorage` contents, and the provider-side record of currently
registered watch handles (`liveWatches`, with `nextHandle` a fresh-handle
counter), plus the single current status line of `setStatus`. -/
structure AppState where
  isTracking : Bool
  isInitialized : Bool
  userId : Option String
  sessionCount : Nat
  locations : List LocationData
  debugLogs : List DebugEntry
  lastLocation : Option LocationData
  userIdSet : Bool
  watchId : Option Nat
  trackingIntervalHandle : Option Nat
  storage : Storage
  liveWatches : List Nat
  nextHandle : Nat
  statusMsg : String
  statusType : Severity

/-- Constant `config.maxDebugLogs` (app.js line 12). -/
def maxDebugLogs : Nat := 50

/-- The pure log update performed by `debug` (app.js lines 555–558):
push the entry, then `shift()` the oldest if the bound is exceeded. -/
def debugPush (logs : List DebugEntry) (e : DebugEntry) : List DebugEntry :=
  let l := logs ++ [e]
  if l.length > maxDebugLogs then l.tail else l

/-- Model of `debug(message, type)` (app.js lines 551–568) as a state update. -/
def AppState.debug (st : AppState) (message : String) (type : Severity)
    (now : String) : AppState :=
  { st with debugLogs := debugPush st.debugLogs ⟨message, type, now⟩ }

/-- Model of `setStatus(message, type)` (app.js lines 536–546): updates the single
current status line. -/
def AppState.setStatus (st : AppState) (message : String) (type : Severity) :
    AppState :=
  { st with statusMsg := message, statusType := type }

/-- Model of `addLocationLog(data)` (app.js lines 491–493): appends the sample to
the in-memory `locations` array; touches nothing else. -/
def AppState.addLocationLog (st : AppState) (d : LocationData) : AppState :=
  { st with locations := st.locations ++ [d] }

/-- Model of `showValidationError(message)` (app.js lines 280–288): status line to
error plus one error debug entry (the DOM message box is UI glue). -/
def AppState.showValidationError (st : AppState) (message : String)
    (now : String) : AppState :=
  (st.setStatus message .error).debug message .error now

/-- Outcome of the `POST {base}/push` fetch awaited by `sendToBackend`:
a 2xx response whose body parses to an object with an `id` (or fails to
parse), a non-2xx status (which makes the code throw `HTTP ...`), or a
thrown network error. -/
inductive PushOutcome where
  | okWithId (id : String)
  | okMalformedBody
  | badStatus (status : Nat) (statusText : String)
  | networkError (message : String)
deriving DecidableEq, Repr

/-- Parse outcome of the body of a 2xx `GET history/{candidate}` response
awaited by `submitUserId`: a JSON array of `n` prior records, some non-array
JSON value, or a body on which `response.json()` throws. -/
inductive HistoryBody where
  | arr (n : Nat)
  | nonArray
  | malformed
deriving DecidableEq, Repr

/-- Outcome of the `GET history/{candidate}` fetch awaited by
`submitUserId`: 2xx with a body, non-2xx status (note: `fetch` does NOT
throw on a non-2xx status), or a thrown network error. -/
inductive HistoryOutcome where
  | ok (body : HistoryBody)
  | badStatus (status : Nat)
  | networkError (message : String)
deriving DecidableEq, Repr

/-- The payload object literal of `sendToBackend` (app.js lines 435–441). -/
def pushBody (userId : Option String) (d : LocationData) : Payload :=
  { user_id := userId
    latitude := d.latitude
    longitude := d.longitude
    accuracy := d.accuracy
    timestamp := d.timestamp }

/-- The serialized form of the payload: the key/value pairs of
`JSON.stringify(payload)` in object-literal order (app.js line 452). -/
def payloadEntries (p : Payload) : List (String × JVal) :=
  [ ("user_id", match p.user_id with | some u => .s u | none => .null)
  , ("latitude", .num p.latitude)
  , ("longitude", .num p.longitude)
  , ("accuracy", .num p.accuracy)
  , ("timestamp", .s p.timestamp) ]

/-- The key/value pairs of the sample object literal built by
`onLocationSuccess` (app.js lines 387–395), in object-literal order. -/
def sampleEntries (d : LocationData) : List (String × JVal) :=
  let opt : Option Rat → JVal := fun v =>
    match v with | some r => .num r | none => .null
  [ ("latitude", .num d.latitude)
  , ("longitude", .num d.longitude)
  , ("accuracy", .num d.accuracy)
  , ("altitude", opt d.altitude)
  , ("heading", opt d.heading)
  , ("speed", opt d.speed)
  , ("timestamp", .s d.timestamp) ]

/-- Constant `config.backendUrl` (app.js line 10). -/
def backendUrl : String :=
  "https://k04bfg24-8080.asse.devtunnels.ms/api/v1/tracking/push"

/-- Model of `sendToBackend(locationData)` (app.js lines 434–474).  The fetch
outcome is an input; every path of the try/catch in the source appends the
sample to the local log via `addLocationLog`. -/
def sendToBackend (st : AppState) (d : LocationData) (outcome : PushOutcome)
    (now : String) : AppState :=
  let st := st.debug (s!"Sending to: {backendUrl}") .info now
  match outcome with
  | .okWithId i =>
      (st.debug (s!"Data sent successfully (ID: {i})") .success now).addLocationLog d
  | .okMalformedBody =>
      (((st.debug "Backend error: malformed response body" .warning now).debug
        (s!"URL: {backendUrl}") .warning now)).addLocationLog d
  | .badStatus status statusText =>
      (((st.debug (s!"Backend error: HTTP {status}: {statusText}") .warning now).debug
        (s!"URL: {backendUrl}") .warning now)).addLocationLog d
  | .networkError m =>
      (((st.debug (s!"Backend error: {m}") .warning now).debug
        (s!"URL: {backendUrl}") .warning now)).addLocationLog d

/-- The sample object built by `onLocationSuccess` from the raw coords and
the captured instant (app.js lines 384–395). -/
def mkLocationData (c : Coords) (now : String) : LocationData :=
  { latitude := c.latitude
    longitude := c.longitude
    accuracy := c.accuracy
    altitude := c.altitude
    heading := c.heading
    speed := c.speed
    timestamp := now }

/-- Model of `onLocationSuccess(position)` (app.js lines 383–408): build the
sample, record it as `lastLocation`, log, and hand it to `sendToBackend`
(whose fetch outcome is an input of the event). -/
def onLocationSuccess (st : AppState) (c : Coords) (now : String)
    (delivery : PushOutcome) : AppState :=
  let d := mkLocationData c now
  let st := { st with lastLocation := some d }
  let st := st.debug "Location received" .success now
  sendToBackend st d delivery now

/-- Model of `stopTracking()` (app.js lines 334–360). -/
def stopTracking (st : AppState) (now : String) : AppState :=
  if !st.isTracking then
    st.debug "Tracking not active" .warning now
  else
    let st :=
      match st.watchId with
      | some h =>
          ({ st with
              liveWatches := st.liveWatches.filter (fun x => x ≠ h)
              watchId := none }).debug "Cleared watchPosition" .info now
      | none => st
    let st :=
      match st.trackingIntervalHandle with
      | some _ => { st with trackingIntervalHandle := none }
      | none => st
    let st := { st with isTracking := false }
    (st.debug "Tracking stopped" .info now).setStatus "Tracking stopped" .info

/-- Model of `onLocationError(error)` (app.js lines 413–429): log and surface the
classified message; only code 1 (permission denied) stops tracking. -/
def onLocationError (st : AppState) (code : Nat) (now : String) : AppState :=
  let message :=
    if code = 1 then "Permission denied - Enable location access"
    else if code = 2 then "Position unavailable - Check GPS signal"
    else if code = 3 then "Location request timeout"
    else "Unknown geolocation error"
  let st := st.debug message .error now
  let st := st.setStatus message .error
  if code = 1 then stopTracking st now else st

/-- Rendering of `this.state.userId` inside a template string
(JavaScript renders `null` as the string `null`). -/
def optStr (u : Option String) : String := u.getD "null"

/-- Model of `startTracking()` (app.js lines 293–329). -/
def startTracking (st : AppState) (now : String) : AppState :=
  if !st.userIdSet then
    let st := st.debug "User ID not set. Please set User ID first." .error now
    let st := st.setStatus "Please set User ID first" .error
    st.debug "User ID modal shown" .info now
  else if st.isTracking then
    st.debug "Tracking already active" .warning now
  else
    let st := st.setStatus "Starting..." .info
    let st := { st with isTracking := true, sessionCount := st.sessionCount + 1 }
    let h := st.nextHandle
    let st := { st with
      watchId := some h
      liveWatches := st.liveWatches ++ [h]
      nextHandle := h + 1 }
    let st := st.debug "Using watchPosition for continuous tracking" .info now
    let st := st.debug "Tracking started (Watch active)" .success now
    let st := st.setStatus "Tracking active" .success
    { st with
      storage := st.storage.setItem ("session_count_" ++ optStr st.userId)
        (toString st.sessionCount) }

/-- The distinct exit points of `submitUserId` (app.js lines 199–275),
named after the error taxonomy of the spec.  `invalidFormat` carries the
message passed to `showValidationError`; `alreadyTakenRemote` carries the
length of the remote history; `alreadyTakenLocal` is the catch-block
local rejection; `acceptedOnline`/`acceptedOffline` are the try-block and
catch-block acceptance paths. -/
inductive SubmitResult where
  | invalidFormat (message : String)
  | alreadyTakenRemote (count : Nat)
  | alreadyTakenLocal
  | acceptedOnline
  | acceptedOffline
deriving DecidableEq, Repr

/-- Whether a `SubmitResult` is the `InvalidFormat` validation failure. -/
def SubmitResult.isInvalidFormat : SubmitResult → Bool
  | .invalidFormat _ => true
  | _ => false

/-- The character class of the regex `^[a-zA-Z0-9_-]+$`
(app.js line 209). -/
def idChar (c : Char) : Bool :=
  c.isAlpha || c.isDigit || c = '_' || c = '-'

/-- Test modelling `/^[a-zA-Z0-9_-]+$/.test(userId)` (app.js line 209). -/
def matchesIdRegex (userId : String) : Bool :=
  userId.length ≥ 1 && userId.data.all idChar

/-- Result record of `submitUserId`: the post-state, which exit was
taken, and whether the availability fetch was issued at all. -/
structure SubmitOut where
  state : AppState
  result : SubmitResult
  fetched : Bool

/-- The remote-taken rejection of `submitUserId` (app.js lines 231–235):
2xx response whose body is a non-empty array. -/
def submitTakenRemote (st : AppState) (userId : String) (cnt : Nat)
    (now : String) : SubmitOut :=
  let st := st.showValidationError
    (s!"User ID {userId} already exists with {cnt} tracking records. Please use a different User ID.")
    now
  let st := st.debug (s!"User ID {userId} already in use") .warning now
  { state := st, result := .alreadyTakenRemote cnt, fetched := true }

/-- The try-block acceptance of `submitUserId` (app.js lines 238–251):
set the identity, restore the persisted session counter, persist the
identity slot, flip the initialization flag. -/
def submitAcceptOnline (st : AppState) (userId : String) (now : String) :
    SubmitOut :=
  let st := { st with
    userId := some userId
    userIdSet := true
    sessionCount :=
      parseIntD ((st.storage.getItem ("session_count_" ++ userId)).getD "0") }
  let st := { st with
    storage := st.storage.setItem "current_user_id" userId }
  let st := st.debug (s!"User ID {userId} verified and set") .success now
  let st := st.setStatus "Ready to track" .success
  { state := { st with isInitialized := true }
    result := .acceptedOnline
    fetched := true }

/-- The catch-block of `submitUserId` (app.js lines 253–274): degrade to
the local-only check against `tracking_data_{userId}`, then either reject
locally or accept in offline mode. -/
def submitCatch (st : AppState) (userId : String) (errMsg : String)
    (now : String) : SubmitOut :=
  let st := st.debug (s!"Could not verify User ID online: {errMsg}") .warning now
  let localLen :=
    jsonArrayLen ((st.storage.getItem ("tracking_data_" ++ userId)).getD "[]")
  if localLen > 0 then
    let st := st.showValidationError
      (s!"User ID {userId} already used locally. Please use a different User ID.")
      now
    { state := st, result := .alreadyTakenLocal, fetched := true }
  else
    let st := { st with
      userId := some userId
      userIdSet := true
      storage := st.storage.setItem "current_user_id" userId }
    let st := { st with isInitialized := true }
    let st := st.setStatus "Offline mode - Ready to track" .warning
    let st := st.debug (s!"User ID set to {userId} (offline validation)") .info now
    { state := st, result := .acceptedOffline, fetched := true }

/-- Model of `submitUserId()` (app.js lines 199–275).  `userId` is the candidate
identifier, i.e. the trimmed value of the input field read at line 201
(the DOM read itself is UI glue); `remote` is the outcome of the
`GET history/{userId}` fetch, consumed only if validation passes.
A non-2xx status does not throw, so it reaches the try-block acceptance;
only a thrown fetch or a malformed 2xx body reaches the catch-block. -/
def submitUserId (st : AppState) (userId : String) (remote : HistoryOutcome)
    (now : String) : SubmitOut :=
  if userId = "" then
    { state := st.showValidationError "Please enter a User ID" now
      result := .invalidFormat "Please enter a User ID"
      fetched := false }
  else if !(matchesIdRegex userId) || userId.length < 3 || userId.length > 50 then
    { state := st.showValidationError "Invalid User ID format" now
      result := .invalidFormat "Invalid User ID format"
      fetched := false }
  else
    let st := st.debug (s!"Checking User ID availability: {userId}") .info now
    let st := st.setStatus "Checking User ID..." .info
    match remote with
    | .ok (.arr (n + 1)) => submitTakenRemote st userId (n + 1) now
    | .ok (.arr 0) | .ok .nonArray | .badStatus _ =>
        submitAcceptOnline st userId now
    | .ok .malformed => submitCatch st userId "Unexpected token in JSON" now
    | .networkError m => submitCatch st userId m now

/-- The discrete events driving the app after construction: a submit of
the identity form, the start/stop buttons, and the provider callbacks
(each carrying the environment data the handler awaits or reads). -/
inductive Event where
  | submit (candidate : String) (remote : HistoryOutcome) (now : String)
  | start (now : String)
  | stop (now : String)
  | locSuccess (c : Coords) (now : String) (delivery : PushOutcome)
  | locError (code : Nat) (now : String)

/-- One event step. -/
def step (st : AppState) : Event → AppState
  | .submit c r now => (submitUserId st c r now).state
  | .start now => startTracking st now
  | .stop now => stopTracking st now
  | .locSuccess c now d => onLocationSuccess st c now d
  | .locError code now => onLocationError st code now

/-- Run a sequence of events. -/
def runEvents (st : AppState) (es : List Event) : AppState :=
  es.foldl step st

/-- The state after the constructor and `init()` (app.js lines 7–65):
`this.state` initialized, `localStorage` read only (`tracking_interval`
at line 11), the startup debug entries appended, the user-id modal
shown.  `s0` is the pre-existing `localStorage` contents. -/
def initApp (s0 : Storage) (now : String) : AppState :=
  let st : AppState :=
    { isTracking := false
      isInitialized := false
      userId := none
      sessionCount := 0
      locations := []
      debugLogs := []
      lastLocation := none
      userIdSet := false
      watchId := none
      trackingIntervalHandle := none
      storage := s0
      liveWatches := []
      nextHandle := 0
      statusMsg := ""
      statusType := .info }
  let st := st.debug "App started" .system now
  st.debug "User ID modal shown" .info now

/-- The debug log produced by a sequence of `debug` calls starting from
the empty log (the constructor initializes `debugLogs` to `[]`). -/
def debugRun (es : List DebugEntry) : List DebugEntry :=
  es.foldl debugPush []

/-- The subscription invariant of the sampler: when tracking is active
there is exactly one live provider subscription, matching `watchId`;
when inactive, the handle is null and no subscription is live. -/
def WatchInv (st : AppState) : Prop :=
  (st.isTracking = true → ∃ h, st.watchId = some h ∧ st.liveWatches = [h]) ∧
  (st.isTracking = false → st.watchId = none ∧ st.liveWatches = [])

/-- A state is reachable when some event sequence leads to it from the
freshly constructed app (over an arbitrary pre-existing storage). -/
def Reachable (st : AppState) : Prop :=
  ∃ s0 n0 es, st = runEvents (initApp s0 n0) es

/-! ## Helper lemmas -/

/-! Projection lemmas for the elementary state updaters: these let `simp`
compute any field of a chain of `debug`/`setStatus`/`addLocationLog`
updates without deep definitional unfolding. -/

theorem debug_fields (st : AppState) (m : String) (ty : Severity) (now : String) :
    (st.debug m ty now).isTracking = st.isTracking ∧
    (st.debug m ty now).isInitialized = st.isInitialized ∧
    (st.debug m ty now).userId = st.userId ∧
    (st.debug m ty now).sessionCount = st.sessionCount ∧
    (st.debug m ty now).locations = st.locations ∧
    (st.debug m ty now).lastLocation = st.lastLocation ∧
    (st.debug m ty now).userIdSet = st.userIdSet ∧
    (st.debug m ty now).watchId = st.watchId ∧
    (st.debug m ty now).trackingIntervalHandle = st.trackingIntervalHandle ∧
    (st.debug m ty now).storage = st.storage ∧
    (st.debug m ty now).liveWatches = st.liveWatches ∧
    (st.debug m ty now).nextHandle = st.nextHandle ∧
    (st.debug m ty now).statusMsg = st.statusMsg ∧
    (st.debug m ty now).statusType = st.statusType ∧
    (st.debug m ty now).debugLogs = debugPush st.debugLogs ⟨m, ty, now⟩ :=
  ⟨rfl, rfl, rfl, rfl, rfl, rfl, rfl, rfl, rfl, rfl, rfl, rfl, rfl, rfl, rfl⟩

attribute [simp] AppState.debug AppState.setStatus AppState.addLocationLog
  AppState.showValidationError

@[simp] theorem mk_isTracking (a b c d e f g h i j k l m n o) :
    (AppState.mk a b c d e f g h i j k l m n o).isTracking = a := rfl
@[simp] theorem mk_isInitialized (a b c d e f g h i j k l m n o) :
    (AppState.mk a b c d e f g h i j k l m n o).isInitialized = b := rfl
@[simp] theorem mk_userId (a b c d e f g h i j k l m n o) :
    (AppState.mk a b c d e f g h i j k l m n o).userId = c := rfl
@[simp] theorem mk_sessionCount (a b c d e f g h i j k l m n o) :
    (AppState.mk a b c d e f g h i j k l m n o).sessionCount = d := rfl
@[simp] theorem mk_locations (a b c d e f g h i j k l m n o) :
    (AppState.mk a b c d e f g h i j k l m n o).locations = e := rfl
@[simp] theorem mk_debugLogs (a b c d e f g h i j k l m n o) :
    (AppState.mk a b c d e f g h i j k l m n o).debugLogs = f := rfl
@[simp] theorem mk_lastLocation (a b c d e f g h i j k l m n o) :
    (AppState.mk a b c d e f g h i j k l m n o).lastLocation = g := rfl
@[simp] theorem mk_userIdSet (a b c d e f g h i j k l m n o) :
    (AppState.mk a b c d e f g h i j k l m n o).userIdSet = h := rfl
@[simp] theorem mk_watchId (a b c d e f g h i j k l m n o) :
    (AppState.mk a b c d e f g h i j k l m n o).watchId = i := rfl
@[simp] theorem mk_trackingIntervalHandle (a b c d e f g h i j k l m n o) :
    (AppState.mk a b c d e f g h i j k l m n o).trackingIntervalHandle = j := rfl
@[simp] theorem mk_storage (a b c d e f g h i j k l m n o) :
    (AppState.mk a b c d e f g h i j k l m n o).storage = k := rfl
@[simp] theorem mk_liveWatches (a b c d e f g h i j k l m n o) :
    (AppState.mk a b c d e f g h i j k l m n o).liveWatches = l := rfl
@[simp] theorem mk_nextHandle (a b c d e f g h i j k l m n o) :
    (AppState.mk a b c d e f g h i j k l m n o).nextHandle = m := rfl
@[simp] theorem mk_statusMsg (a b c d e f g h i j k l m n o) :
    (AppState.mk a b c d e f g h i j k l m n o).statusMsg = n := rfl
@[simp] theorem mk_statusType (a b c d e f g h i j k l m n o) :
    (AppState.mk a b c d e f g h i j k l m n o).statusType = o := rfl



theorem getItem_setItem_ne (s : Storage) (k v k' : String) (h : k' ≠ k) :
    (s.setItem k v).getItem k' = s.getItem k' := by
  unfold Storage.setItem Storage.getItem
  rw [List.find?_cons_of_neg]
  simp only [decide_eq_true_eq]
  exact fun he => h he.symm

theorem track_ne_current (id : String) :
    ("tracking_data_" ++ id : String) ≠ "current_user_id" := by
  intro h
  have hd := congrArg String.data h
  rw [String.data_append] at hd
  have hh : (some 't' : Option Char) = some 'c' := congrArg List.head? hd
  exact absurd hh (by decide)

theorem track_ne_session (id u : String) :
    ("tracking_data_" ++ id : String) ≠ "session_count_" ++ u := by
  intro h
  have hd := congrArg String.data h
  rw [String.data_append, String.data_append] at hd
  have := List.append_inj_left hd (by decide)
  exact absurd this (by decide)

/-- Fields of the state that `submitCatch` never touches. -/
theorem submitCatch_frame (st : AppState) (u m now : String) :
    (submitCatch st u m now).state.isTracking = st.isTracking ∧
    (submitCatch st u m now).state.watchId = st.watchId ∧
    (submitCatch st u m now).state.liveWatches = st.liveWatches ∧
    (submitCatch st u m now).state.locations = st.locations ∧
    (submitCatch st u m now).state.sessionCount = st.sessionCount ∧
    (submitCatch st u m now).state.nextHandle = st.nextHandle ∧
    (submitCatch st u m now).state.trackingIntervalHandle = st.trackingIntervalHandle := by
  unfold submitCatch
  dsimp only
  split <;> exact ⟨rfl, rfl, rfl, rfl, rfl, rfl, rfl⟩

set_option maxHeartbeats 1000000 in
/-- Fields of the state that `submitUserId` never touches. -/
theorem submit_frame (st : AppState) (u : String) (r : HistoryOutcome) (now : String) :
    (submitUserId st u r now).state.isTracking = st.isTracking ∧
    (submitUserId st u r now).state.watchId = st.watchId ∧
    (submitUserId st u r now).state.liveWatches = st.liveWatches ∧
    (submitUserId st u r now).state.locations = st.locations ∧
    (submitUserId st u r now).state.nextHandle = st.nextHandle ∧
    (submitUserId st u r now).state.trackingIntervalHandle = st.trackingIntervalHandle := by
  unfold submitUserId
  dsimp only
  split
  · exact ⟨rfl, rfl, rfl, rfl, rfl, rfl⟩
  split
  · exact ⟨rfl, rfl, rfl, rfl, rfl, rfl⟩
  split
  · exact ⟨rfl, rfl, rfl, rfl, rfl, rfl⟩
  · exact ⟨rfl, rfl, rfl, rfl, rfl, rfl⟩
  · exact ⟨rfl, rfl, rfl, rfl, rfl, rfl⟩
  · exact ⟨rfl, rfl, rfl, rfl, rfl, rfl⟩
  · obtain ⟨h1, h2, h3, h4, _, h6, h7⟩ := submitCatch_frame _ u "Unexpected token in JSON" now
    exact ⟨h1, h2, h3, h4, h6, h7⟩
  · rename_i m
    obtain ⟨h1, h2, h3, h4, _, h6, h7⟩ := submitCatch_frame _ u m now
    exact ⟨h1, h2, h3, h4, h6, h7⟩

/-- Here `submitAcceptOnline` writes only the `current_user_id` storage slot. -/
theorem submitAcceptOnline_storage (st : AppState) (u now k : String)
    (h : k ≠ "current_user_id") :
    (submitAcceptOnline st u now).state.storage.getItem k = st.storage.getItem k := by
  unfold submitAcceptOnline
  dsimp only
  exact getItem_setItem_ne _ _ _ _ h

/-- Here `submitCatch` writes only the `current_user_id` storage slot. -/
theorem submitCatch_storage (st : AppState) (u m now k : String)
    (h : k ≠ "current_user_id") :
    (submitCatch st u m now).state.storage.getItem k = st.storage.getItem k := by
  unfold submitCatch
  dsimp only
  split
  · rfl
  · exact getItem_setItem_ne _ _ _ _ h

/-- Here `submitUserId` writes only the `current_user_id` storage slot. -/
theorem submit_storage (st : AppState) (u : String) (r : HistoryOutcome)
    (now k : String) (h : k ≠ "current_user_id") :
    (submitUserId st u r now).state.storage.getItem k = st.storage.getItem k := by
  unfold submitUserId
  dsimp only
  split
  · rfl
  split
  · rfl
  split
  · rfl
  · exact submitAcceptOnline_storage _ u now k h
  · exact submitAcceptOnline_storage _ u now k h
  · exact submitAcceptOnline_storage _ u now k h
  · exact submitCatch_storage _ u "Unexpected token in JSON" now k h
  · rename_i m
    exact submitCatch_storage _ u m now k h

/-- Here `sendToBackend` appends the sample to the local log exactly once on
every fetch outcome, and touches no other state except the debug log. -/
theorem sendToBackend_spec (st : AppState) (d : LocationData)
    (o : PushOutcome) (now : String) :
    (sendToBackend st d o now).locations = st.locations ++ [d] ∧
    (sendToBackend st d o now).isTracking = st.isTracking ∧
    (sendToBackend st d o now).watchId = st.watchId ∧
    (sendToBackend st d o now).liveWatches = st.liveWatches ∧
    (sendToBackend st d o now).storage = st.storage ∧
    (sendToBackend st d o now).userId = st.userId ∧
    (sendToBackend st d o now).userIdSet = st.userIdSet ∧
    (sendToBackend st d o now).sessionCount = st.sessionCount ∧
    (sendToBackend st d o now).nextHandle = st.nextHandle ∧
    (sendToBackend st d o now).trackingIntervalHandle = st.trackingIntervalHandle := by
  cases o <;> simp [sendToBackend]

/-- Here `onLocationSuccess` appends exactly the built sample to the local log
and leaves the tracking machinery and storage untouched. -/
theorem onLocationSuccess_spec (st : AppState) (c : Coords) (now : String)
    (o : PushOutcome) :
    (onLocationSuccess st c now o).locations
      = st.locations ++ [mkLocationData c now] ∧
    (onLocationSuccess st c now o).isTracking = st.isTracking ∧
    (onLocationSuccess st c now o).watchId = st.watchId ∧
    (onLocationSuccess st c now o).liveWatches = st.liveWatches ∧
    (onLocationSuccess st c now o).storage = st.storage ∧
    (onLocationSuccess st c now o).sessionCount = st.sessionCount := by
  have h := sendToBackend_spec
    (({ st with lastLocation := some (mkLocationData c now) }).debug
      "Location received" .success now) (mkLocationData c now) o now
  obtain ⟨h1, h2, h3, h4, h5, _, _, h8, _, _⟩ := h
  unfold onLocationSuccess
  refine ⟨?_, ?_, ?_, ?_, ?_, ?_⟩ <;>
    first
      | (rw [h1]; simp)
      | (rw [h2]; simp)
      | (rw [h3]; simp)
      | (rw [h4]; simp)
      | (rw [h5]; simp)
      | (rw [h8]; simp)

/-- Here `stopTracking` on an inactive state is a warning no-op: nothing but
the debug log changes. -/
theorem stopTracking_inactive (st : AppState) (now : String)
    (h : st.isTracking = false) :
    (stopTracking st now).isTracking = st.isTracking ∧
    (stopTracking st now).watchId = st.watchId ∧
    (stopTracking st now).liveWatches = st.liveWatches ∧
    (stopTracking st now).storage = st.storage ∧
    (stopTracking st now).sessionCount = st.sessionCount ∧
    (stopTracking st now).locations = st.locations := by
  unfold stopTracking
  rw [if_pos (by rw [h]; rfl)]
  exact ⟨rfl, rfl, rfl, rfl, rfl, rfl⟩

/-- Here `stopTracking` on an active state satisfying the subscription
invariant clears the handle and the live subscription, deactivates
tracking, and leaves counters/storage/locations alone. -/
theorem stopTracking_active (st : AppState) (now : String)
    (hinv : WatchInv st) (h : st.isTracking = true) :
    (stopTracking st now).isTracking = false ∧
    (stopTracking st now).watchId = none ∧
    (stopTracking st now).liveWatches = [] ∧
    (stopTracking st now).storage = st.storage ∧
    (stopTracking st now).sessionCount = st.sessionCount ∧
    (stopTracking st now).locations = st.locations := by
  obtain ⟨hw, _⟩ := hinv
  obtain ⟨h0, hwid, hlive⟩ := hw h
  unfold stopTracking
  rw [if_neg (by rw [h]; simp)]
  rw [hwid, hlive]
  dsimp only
  have hfilt : List.filter (fun x => decide (x ≠ h0)) [h0] = [] := by simp
  rw [hfilt]
  cases htr : st.trackingIntervalHandle <;>
    exact ⟨rfl, rfl, rfl, rfl, rfl, rfl⟩

/-- Here `startTracking` with no identity set is a warning no-op on
everything except the debug log and status line. -/
theorem startTracking_noUser (st : AppState) (now : String)
    (h : st.userIdSet = false) :
    (startTracking st now).isTracking = st.isTracking ∧
    (startTracking st now).watchId = st.watchId ∧
    (startTracking st now).liveWatches = st.liveWatches ∧
    (startTracking st now).storage = st.storage ∧
    (startTracking st now).sessionCount = st.sessionCount ∧
    (startTracking st now).locations = st.locations := by
  unfold startTracking
  rw [if_pos (by rw [h]; rfl)]
  exact ⟨rfl, rfl, rfl, rfl, rfl, rfl⟩

/-- Here `startTracking` while already tracking is a warning no-op on
everything except the debug log. -/
theorem startTracking_already (st : AppState) (now : String)
    (hu : st.userIdSet = true) (h : st.isTracking = true) :
    (startTracking st now).isTracking = st.isTracking ∧
    (startTracking st now).watchId = st.watchId ∧
    (startTracking st now).liveWatches = st.liveWatches ∧
    (startTracking st now).storage = st.storage ∧
    (startTracking st now).sessionCount = st.sessionCount ∧
    (startTracking st now).locations = st.locations := by
  unfold startTracking
  rw [if_neg (by rw [hu]; simp), if_pos h]
  exact ⟨rfl, rfl, rfl, rfl, rfl, rfl⟩

/-- Here `startTracking` from an eligible state: activates tracking, bumps the
session counter once, registers exactly one new provider subscription and
persists the bumped counter under `session_count_{userId}`. -/
theorem startTracking_go (st : AppState) (now : String)
    (hu : st.userIdSet = true) (h : st.isTracking = false) :
    (startTracking st now).isTracking = true ∧
    (startTracking st now).watchId = some st.nextHandle ∧
    (startTracking st now).liveWatches = st.liveWatches ++ [st.nextHandle] ∧
    (startTracking st now).sessionCount = st.sessionCount + 1 ∧
    (startTracking st now).storage
      = st.storage.setItem ("session_count_" ++ optStr st.userId)
          (toString (st.sessionCount + 1)) ∧
    (startTracking st now).userId = st.userId ∧
    (startTracking st now).locations = st.locations := by
  unfold startTracking
  rw [if_neg (by rw [hu]; simp), if_neg (by rw [h]; simp)]
  exact ⟨rfl, rfl, rfl, rfl, rfl, rfl, rfl⟩

/-- Here `WatchInv` only depends on the three subscription-related fields. -/
theorem watchInv_congr (st st' : AppState)
    (h1 : st'.isTracking = st.isTracking) (h2 : st'.watchId = st.watchId)
    (h3 : st'.liveWatches = st.liveWatches) (h : WatchInv st) : WatchInv st' := by
  constructor
  · intro ht
    rw [h1] at ht
    rw [h2, h3]
    exact h.1 ht
  · intro hf
    rw [h1] at hf
    rw [h2, h3]
    exact h.2 hf

/-- Here `stopTracking` never writes storage. -/
theorem stopTracking_storage (st : AppState) (now : String) :
    (stopTracking st now).storage = st.storage := by
  unfold stopTracking
  dsimp only
  split
  · simp
  · split <;> split <;> simp

/-- Here `onLocationError` never writes storage. -/
theorem onLocationError_storage (st : AppState) (code : Nat) (now : String) :
    (onLocationError st code now).storage = st.storage := by
  unfold onLocationError
  dsimp only
  split
  · rw [stopTracking_storage]; simp
  · simp

/-- Every event step preserves the subscription invariant. -/
theorem step_watchInv (st : AppState) (e : Event) (h : WatchInv st) :
    WatchInv (step st e) := by
  cases e with
  | submit c r now =>
      obtain ⟨f1, f2, f3, _⟩ := submit_frame st c r now
      exact watchInv_congr st _ f1 f2 f3 h
  | start now =>
      show WatchInv (startTracking st now)
      cases hu : st.userIdSet with
      | false =>
          obtain ⟨f1, f2, f3, _⟩ := startTracking_noUser st now hu
          exact watchInv_congr st _ f1 f2 f3 h
      | true =>
          cases htr : st.isTracking with
          | true =>
              obtain ⟨f1, f2, f3, _⟩ := startTracking_already st now hu htr
              exact watchInv_congr st _ f1 f2 f3 h
          | false =>
              obtain ⟨g1, g2, g3, _⟩ := startTracking_go st now hu htr
              obtain ⟨_, hlive⟩ := h.2 htr
              constructor
              · intro _
                refine ⟨st.nextHandle, g2, ?_⟩
                rw [g3, hlive, List.nil_append]
              · intro hf
                rw [g1] at hf
                cases hf
  | stop now =>
      show WatchInv (stopTracking st now)
      cases htr : st.isTracking with
      | false =>
          obtain ⟨f1, f2, f3, _⟩ := stopTracking_inactive st now htr
          refine watchInv_congr st _ ?_ f2 f3 h
          rw [f1]
      | true =>
          obtain ⟨s1, s2, s3, _⟩ := stopTracking_active st now h htr
          constructor
          · intro ht
            rw [s1] at ht
            cases ht
          · intro _
            exact ⟨s2, s3⟩
  | locSuccess c now d =>
      obtain ⟨_, f1, f2, f3, _⟩ := onLocationSuccess_spec st c now d
      exact watchInv_congr st _ f1 f2 f3 h
  | locError code now =>
      show WatchInv (onLocationError st code now)
      unfold onLocationError
      dsimp only
      have h' : WatchInv ((st.debug
          (if code = 1 then "Permission denied - Enable location access"
           else if code = 2 then "Position unavailable - Check GPS signal"
           else if code = 3 then "Location request timeout"
           else "Unknown geolocation error") .error now).setStatus
          (if code = 1 then "Permission denied - Enable location access"
           else if code = 2 then "Position unavailable - Check GPS signal"
           else if code = 3 then "Location request timeout"
           else "Unknown geolocation error") .error) := by
        refine watchInv_congr st _ ?_ ?_ ?_ h <;> simp
      split
      · set st' := (st.debug _ .error now).setStatus _ .error with hst'
        cases htr : st'.isTracking with
        | false =>
            obtain ⟨f1, f2, f3, _⟩ := stopTracking_inactive st' now htr
            refine watchInv_congr st' _ ?_ f2 f3 h'
            rw [f1]
        | true =>
            obtain ⟨s1, s2, s3, _⟩ := stopTracking_active st' now h' htr
            constructor
            · intro ht
              rw [s1] at ht
              cases ht
            · intro _
              exact ⟨s2, s3⟩
      · exact h'

/-- The freshly constructed app satisfies the subscription invariant. -/
theorem initApp_watchInv (s0 : Storage) (n0 : String) :
    WatchInv (initApp s0 n0) := by
  constructor
  · intro ht
    simp [initApp] at ht
  · intro _
    refine ⟨?_, ?_⟩ <;> simp [initApp]

/-- Running events preserves the subscription invariant. -/
theorem runEvents_watchInv (es : List Event) :
    ∀ st : AppState, WatchInv st → WatchInv (runEvents st es) := by
  induction es with
  | nil => exact fun st h => h
  | cons e es ih =>
      intro st h
      exact ih (step st e) (step_watchInv st e h)

/-- Every reachable state satisfies the subscription invariant. -/
theorem reachable_watchInv (st : AppState) (h : Reachable st) : WatchInv st := by
  obtain ⟨s0, n0, es, rfl⟩ := h
  exact runEvents_watchInv es _ (initApp_watchInv s0 n0)

/-- The constructor reads but never writes storage. -/
theorem initApp_storage (s0 : Storage) (n0 : String) :
    (initApp s0 n0).storage = s0 := by
  simp [initApp]

/-- Here `startTracking` writes no `tracking_data_*` slot. -/
theorem startTracking_storage_track (st : AppState) (now id : String) :
    (startTracking st now).storage.getItem ("tracking_data_" ++ id)
      = st.storage.getItem ("tracking_data_" ++ id) := by
  cases hu : st.userIdSet with
  | false => rw [(startTracking_noUser st now hu).2.2.2.1]
  | true =>
      cases htr : st.isTracking with
      | true => rw [(startTracking_already st now hu htr).2.2.2.1]
      | false =>
          rw [(startTracking_go st now hu htr).2.2.2.2.1]
          exact getItem_setItem_ne _ _ _ _ (track_ne_session id _)

/-- No event step writes any `tracking_data_*` slot. -/
theorem step_storage_track (st : AppState) (e : Event) (id : String) :
    (step st e).storage.getItem ("tracking_data_" ++ id)
      = st.storage.getItem ("tracking_data_" ++ id) := by
  cases e with
  | submit c r now => exact submit_storage st c r now _ (track_ne_current id)
  | start now => exact startTracking_storage_track st now id
  | stop now => rw [show (step st (.stop now)).storage = st.storage from
      stopTracking_storage st now]
  | locSuccess c now d =>
      rw [show (step st (.locSuccess c now d)).storage = st.storage from
        (onLocationSuccess_spec st c now d).2.2.2.2.1]
  | locError code now =>
      rw [show (step st (.locError code now)).storage = st.storage from
        onLocationError_storage st code now]

/-- No event sequence writes any `tracking_data_*` slot. -/
theorem runEvents_storage_track (es : List Event) :
    ∀ (st : AppState) (id : String),
      (runEvents st es).storage.getItem ("tracking_data_" ++ id)
        = st.storage.getItem ("tracking_data_" ++ id) := by
  induction es with
  | nil => exact fun st id => rfl
  | cons e es ih =>
      intro st id
      calc (runEvents (step st e) es).storage.getItem ("tracking_data_" ++ id)
          = (step st e).storage.getItem ("tracking_data_" ++ id) := ih _ id
        _ = st.storage.getItem ("tracking_data_" ++ id) :=
            step_storage_track st e id

/-- One `debug` call keeps the log within the 50-entry bound. -/
theorem debugPush_length_le (logs : List DebugEntry) (e : DebugEntry)
    (h : logs.length ≤ 50) : (debugPush logs e).length ≤ 50 := by
  unfold debugPush maxDebugLogs
  dsimp only
  split
  · simpa using h
  · rename_i hle
    simp at hle ⊢
    omega

/-- One `debug` call on an in-bound log is an append followed by dropping
the overflow (at most the single oldest entry) from the front. -/
theorem debugPush_eq_drop (logs : List DebugEntry) (e : DebugEntry)
    (h : logs.length ≤ 50) :
    debugPush logs e = (logs ++ [e]).drop (logs.length + 1 - 50) := by
  unfold debugPush maxDebugLogs
  dsimp only
  split
  · rename_i hgt
    cases logs with
    | nil => simp at hgt
    | cons x xs =>
        simp only [List.length_cons] at h
        simp only [List.cons_append, List.length_cons, List.length_append,
          List.length_nil] at hgt
        have hidx : xs.length + 1 + 1 - 50 = 1 := by omega
        simp only [List.length_cons, List.cons_append, List.tail_cons]
        rw [hidx]
        rfl
  · rename_i hle
    simp only [not_lt, List.length_append, List.length_cons,
      List.length_nil] at hle
    have h0 : logs.length + 1 - 50 = 0 := by omega
    rw [h0, List.drop_zero]

/-- The `debug` fold from any in-bound log keeps only the most recent 50
entries of the appended stream, in order. -/
theorem foldl_debugPush (es : List DebugEntry) :
    ∀ logs : List DebugEntry, logs.length ≤ 50 →
      List.foldl debugPush logs es
        = (logs ++ es).drop ((logs ++ es).length - 50) := by
  induction es with
  | nil =>
      intro logs h
      simp only [List.foldl_nil, List.append_nil]
      rw [Nat.sub_eq_zero_of_le h, List.drop_zero]
  | cons e es ih =>
      intro logs h
      rw [List.foldl_cons, ih _ (debugPush_length_le logs e h),
        debugPush_eq_drop logs e h]
      have hk : logs.length + 1 - 50 ≤ (logs ++ [e]).length := by
        simp
        omega
      rw [← List.drop_append_of_le_length hk, List.drop_drop]
      rw [List.append_assoc, List.singleton_append]
      congr 1
      simp only [List.length_drop, List.length_append, List.length_cons,
        List.length_nil]
      omega

/-- At the end of a `debug` call the newest entry sits at the tail. -/
theorem debugPush_getLast (logs : List DebugEntry) (e : DebugEntry) :
    (debugPush logs e).getLast? = some e := by
  unfold debugPush maxDebugLogs
  dsimp only
  split
  · rename_i hgt
    cases logs with
    | nil => simp at hgt
    | cons x xs =>
        simp only [List.cons_append, List.tail_cons]
        exact List.getLast?_concat _
  · exact List.getLast?_concat _

theorem getItem_setItem_self (s : Storage) (k v : String) :
    (s.setItem k v).getItem k = some v := by
  unfold Storage.setItem Storage.getItem
  rw [List.find?_cons_of_pos]
  · rfl
  · simp

/-! ## Claims -/

/-- C1: for every sample passed to `sendToBackend`, exactly one append to
the local sample log occurs per call, whatever the remote outcome — HTTP
2xx success, non-2xx status, network error, or malformed response body
all leave `locations` extended by exactly that one sample. -/
theorem C1_delivery_logs_exactly_once (st : AppState) (d : LocationData)
    (o : PushOutcome) (now : String) :
    (sendToBackend st d o now).locations = st.locations ++ [d] :=
  (sendToBackend_spec st d o now).1

/-- C8: the transmitted payload consists of exactly the five fields
`user_id`, `latitude`, `longitude`, `accuracy`, `timestamp`, each equal
to the corresponding field of the delivered sample, while the sample
built by the success callback carries `altitude`/`heading`/`speed`
(copied from the provider coords) that are never part of the payload. -/
theorem C8_payload_is_reduced_projection (uid : Option String) (c : Coords)
    (now : String) :
    (payloadEntries (pushBody uid (mkLocationData c now))).map Prod.fst
        = ["user_id", "latitude", "longitude", "accuracy", "timestamp"] ∧
    (pushBody uid (mkLocationData c now)).latitude
        = (mkLocationData c now).latitude ∧
    (pushBody uid (mkLocationData c now)).longitude
        = (mkLocationData c now).longitude ∧
    (pushBody uid (mkLocationData c now)).accuracy
        = (mkLocationData c now).accuracy ∧
    (pushBody uid (mkLocationData c now)).timestamp
        = (mkLocationData c now).timestamp ∧
    (pushBody uid (mkLocationData c now)).user_id = uid ∧
    (mkLocationData c now).altitude = c.altitude ∧
    (mkLocationData c now).heading = c.heading ∧
    (mkLocationData c now).speed = c.speed ∧
    "altitude" ∉ (payloadEntries (pushBody uid (mkLocationData c now))).map Prod.fst ∧
    "heading" ∉ (payloadEntries (pushBody uid (mkLocationData c now))).map Prod.fst ∧
    "speed" ∉ (payloadEntries (pushBody uid (mkLocationData c now))).map Prod.fst := by
  refine ⟨rfl, rfl, rfl, rfl, rfl, rfl, rfl, rfl, rfl, ?_, ?_, ?_⟩ <;>
    simp [payloadEntries]

/-- C9: the debug log is bounded FIFO: starting from the empty log, after
any stream of `debug` calls the log is exactly the last (at most) 50
entries of the stream in append order, its length never exceeds 50, each
call puts its entry at the tail, and the app-level `debug` performs
exactly this update on `debugLogs`. -/
theorem C9_debug_log_bounded_fifo :
    (∀ es : List DebugEntry, debugRun es = es.drop (es.length - 50)) ∧
    (∀ es : List DebugEntry, (debugRun es).length ≤ 50) ∧
    (∀ (logs : List DebugEntry) (e : DebugEntry),
      (debugPush logs e).getLast? = some e) ∧
    (∀ (st : AppState) (m : String) (ty : Severity) (now : String),
      (st.debug m ty now).debugLogs = debugPush st.debugLogs ⟨m, ty, now⟩) := by
  have hmain : ∀ es : List DebugEntry, debugRun es = es.drop (es.length - 50) := by
    intro es
    unfold debugRun
    rw [foldl_debugPush es [] (by simp)]
    simp
  refine ⟨hmain, ?_, debugPush_getLast, fun st m ty now => rfl⟩
  intro es
  rw [hmain es]
  simp only [List.length_drop]
  omega

/-- C10: no operation of the program ever writes a
`tracking_data_{identity}` storage slot: over any event sequence from
construction, every such slot still holds exactly what the pre-existing
storage held, and the local sample log append touches only the in-memory
`locations` array. -/
theorem C10_tracking_data_never_written (s0 : Storage) (n0 : String)
    (es : List Event) (id : String) :
    (runEvents (initApp s0 n0) es).storage.getItem ("tracking_data_" ++ id)
        = s0.getItem ("tracking_data_" ++ id) ∧
    (∀ (st : AppState) (d : LocationData),
      (st.addLocationLog d).storage = st.storage ∧
      (st.addLocationLog d).locations = st.locations ++ [d]) := by
  constructor
  · rw [runEvents_storage_track es (initApp s0 n0) id, initApp_storage]
  · exact fun st d => ⟨rfl, rfl⟩

/-- C4: in every reachable state at most one provider subscription is
live; `startTracking` while a subscription is live registers no second
one; `stopTracking` clears the handle exactly once — on an active state
it empties the handle and the live set, and a second stop in a row
changes neither the handle, the live set, nor the tracking flag. -/
theorem C4_at_most_one_subscription (st : AppState) (h : Reachable st)
    (now : String) :
    st.liveWatches.length ≤ 1 ∧
    (st.isTracking = true →
      (startTracking st now).liveWatches = st.liveWatches ∧
      (startTracking st now).watchId = st.watchId) ∧
    (st.isTracking = true →
      (stopTracking st now).watchId = none ∧
      (stopTracking st now).liveWatches = []) ∧
    (st.isTracking = false →
      (stopTracking st now).watchId = st.watchId ∧
      (stopTracking st now).liveWatches = st.liveWatches ∧
      (stopTracking st now).isTracking = st.isTracking) := by
  have hinv := reachable_watchInv st h
  refine ⟨?_, ?_, ?_, ?_⟩
  · cases htr : st.isTracking with
    | true =>
        obtain ⟨_, _, hl⟩ := hinv.1 htr
        rw [hl]
        exact le_refl 1
    | false =>
        rw [(hinv.2 htr).2]
        exact Nat.zero_le 1
  · intro htr
    cases hu : st.userIdSet with
    | false =>
        obtain ⟨_, f2, f3, _⟩ := startTracking_noUser st now hu
        exact ⟨f3, f2⟩
    | true =>
        obtain ⟨_, f2, f3, _⟩ := startTracking_already st now hu htr
        exact ⟨f3, f2⟩
  · intro htr
    obtain ⟨_, s2, s3, _⟩ := stopTracking_active st now hinv htr
    exact ⟨s2, s3⟩
  · intro htr
    obtain ⟨f1, f2, f3, _⟩ := stopTracking_inactive st now htr
    exact ⟨f2, f3, f1⟩

theorem C4_witness :
    (runEvents (initApp [] "t0")
        [.submit "abc" (.ok (.arr 0)) "t1", .start "t2"]).liveWatches.length ≤ 1 ∧
    (startTracking (runEvents (initApp [] "t0")
        [.submit "abc" (.ok (.arr 0)) "t1", .start "t2"]) "t3").liveWatches
      = (runEvents (initApp [] "t0")
        [.submit "abc" (.ok (.arr 0)) "t1", .start "t2"]).liveWatches ∧
    (stopTracking (runEvents (initApp [] "t0")
        [.submit "abc" (.ok (.arr 0)) "t1", .start "t2"]) "t3").watchId = none := by
  refine ⟨(C4_at_most_one_subscription _ ⟨[], "t0", _, rfl⟩ "t3").1,
    ((C4_at_most_one_subscription _ ⟨[], "t0", _, rfl⟩ "t3").2.1 (by decide)).1,
    ((C4_at_most_one_subscription _ ⟨[], "t0", _, rfl⟩ "t3").2.2.1 (by decide)).1⟩

/-- C6: `startTracking` with the identity unset, or while tracking is
already active, changes neither the session counter, the storage, the
subscription handle, the live subscriptions, nor the tracking flag;
with identity set and tracking inactive it increments the counter
exactly once and persists it under `session_count_{identity}`. -/
theorem C6_startTracking_guards (st : AppState) (now : String) :
    (st.userIdSet = false ∨ st.isTracking = true →
      (startTracking st now).sessionCount = st.sessionCount ∧
      (startTracking st now).storage = st.storage ∧
      (startTracking st now).watchId = st.watchId ∧
      (startTracking st now).liveWatches = st.liveWatches ∧
      (startTracking st now).isTracking = st.isTracking) ∧
    (st.userIdSet = true → st.isTracking = false →
      (startTracking st now).sessionCount = st.sessionCount + 1 ∧
      (startTracking st now).isTracking = true ∧
      (startTracking st now).storage.getItem
          ("session_count_" ++ optStr st.userId)
        = some (toString (st.sessionCount + 1))) := by
  constructor
  · intro hguard
    cases hu : st.userIdSet with
    | false =>
        obtain ⟨f1, f2, f3, f4, f5, _⟩ := startTracking_noUser st now hu
        exact ⟨f5, f4, f2, f3, f1⟩
    | true =>
        cases htr : st.isTracking with
        | false =>
            rcases hguard with hg | hg
            · rw [hu] at hg; cases hg
            · rw [htr] at hg; cases hg
        | true =>
            obtain ⟨f1, f2, f3, f4, f5, _⟩ := startTracking_already st now hu htr
            exact ⟨f5, f4, f2, f3, f1.trans htr⟩
  · intro hu htr
    obtain ⟨g1, _, _, g4, g5, _⟩ := startTracking_go st now hu htr
    refine ⟨g4, g1, ?_⟩
    rw [g5]
    exact getItem_setItem_self _ _ _

theorem C6_witness :
    (startTracking (initApp [] "t0") "t1").sessionCount
        = (initApp [] "t0").sessionCount ∧
    (startTracking (runEvents (initApp [] "t0")
        [.submit "abc" (.ok (.arr 0)) "t1"]) "t2").sessionCount
      = (runEvents (initApp [] "t0")
        [.submit "abc" (.ok (.arr 0)) "t1"]).sessionCount + 1 := by
  refine ⟨((C6_startTracking_guards (initApp [] "t0") "t1").1
      (Or.inl (by decide))).1,
    ((C6_startTracking_guards _ "t2").2 (by decide) (by decide)).1⟩

/-- C7: on a provider error while tracking is active, only code 1
(permission denied) stops tracking — it invokes `stopTracking`, clearing
the handle and the live subscription; any other code (2, 3, or an
unrecognized one) sets an error status but leaves the tracking flag, the
handle and the live subscription unchanged. -/
theorem C7_only_permission_denied_stops (st : AppState) (h : Reachable st)
    (now : String) (code : Nat) (htr : st.isTracking = true) :
    ((onLocationError st 1 now).isTracking = false ∧
     (onLocationError st 1 now).watchId = none ∧
     (onLocationError st 1 now).liveWatches = []) ∧
    (code ≠ 1 →
      (onLocationError st code now).isTracking = st.isTracking ∧
      (onLocationError st code now).watchId = st.watchId ∧
      (onLocationError st code now).liveWatches = st.liveWatches ∧
      (onLocationError st code now).statusType = .error) := by
  have hinv := reachable_watchInv st h
  constructor
  · unfold onLocationError
    dsimp only
    rw [if_pos rfl, if_pos rfl]
    set st' := (st.debug "Permission denied - Enable location access"
      .error now).setStatus "Permission denied - Enable location access"
      .error with hst'
    have hinv' : WatchInv st' := by
      refine watchInv_congr st st' ?_ ?_ ?_ hinv <;> simp [hst']
    have htr' : st'.isTracking = true := by
      rw [hst']
      simpa using htr
    obtain ⟨s1, s2, s3, _⟩ := stopTracking_active st' now hinv' htr'
    exact ⟨s1, s2, s3⟩
  · intro hcode
    unfold onLocationError
    dsimp only
    rw [if_neg hcode, if_neg hcode]
    simp

theorem C7_witness :
    (onLocationError (runEvents (initApp [] "t0")
        [.submit "abc" (.ok (.arr 0)) "t1", .start "t2"]) 1 "t3").isTracking
      = false ∧
    (onLocationError (runEvents (initApp [] "t0")
        [.submit "abc" (.ok (.arr 0)) "t1", .start "t2"]) 3 "t3").isTracking
      = (runEvents (initApp [] "t0")
        [.submit "abc" (.ok (.arr 0)) "t1", .start "t2"]).isTracking := by
  refine ⟨(C7_only_permission_denied_stops _ ⟨[], "t0", _, rfl⟩ "t3" 3
      (by decide)).1.1,
    ((C7_only_permission_denied_stops _ ⟨[], "t0", _, rfl⟩ "t3" 3
      (by decide)).2 (by decide)).1⟩

/-- C5: a candidate violating the format rule (a character outside
`[A-Za-z0-9_-]` — i.e. the regex fails — length below 3, or length above
50) makes `submitUserId` exit through the InvalidFormat validation error:
no fetch is issued and the identity, the initialization flag, the session
counter and the stored identity slot are all unchanged. -/
theorem C5_invalid_format_is_pure_rejection (st : AppState) (userId : String)
    (r : HistoryOutcome) (now : String)
    (h : matchesIdRegex userId = false ∨ userId.length < 3 ∨ userId.length > 50) :
    (submitUserId st userId r now).result.isInvalidFormat = true ∧
    (submitUserId st userId r now).fetched = false ∧
    (submitUserId st userId r now).state.userId = st.userId ∧
    (submitUserId st userId r now).state.userIdSet = st.userIdSet ∧
    (submitUserId st userId r now).state.isInitialized = st.isInitialized ∧
    (submitUserId st userId r now).state.sessionCount = st.sessionCount ∧
    (submitUserId st userId r now).state.storage = st.storage := by
  unfold submitUserId
  dsimp only
  split
  · exact ⟨rfl, rfl, rfl, rfl, rfl, rfl, rfl⟩
  · rw [if_pos ?hc]
    case hc =>
      rcases h with h | h | h
      · rw [h]
        rfl
      · simp [h]
      · simp [h]
    exact ⟨rfl, rfl, rfl, rfl, rfl, rfl, rfl⟩

theorem C5_witness :
    (submitUserId (initApp [] "t0") "ab" (.ok (.arr 0)) "t1").fetched = false ∧
    (submitUserId (initApp [] "t0") "a b" (.ok (.arr 0)) "t1").result.isInvalidFormat
      = true := by
  refine ⟨(C5_invalid_format_is_pure_rejection (initApp [] "t0") "ab"
      (.ok (.arr 0)) "t1" (Or.inr (Or.inl (by decide)))).2.1,
    (C5_invalid_format_is_pure_rejection (initApp [] "t0") "a b"
      (.ok (.arr 0)) "t1" (Or.inl (by decide))).1⟩

/-- When the local history is non-empty, the catch-block rejects locally
and leaves the identity untouched. -/
theorem submitCatch_local_taken (st : AppState) (u m now : String)
    (h : 0 < jsonArrayLen ((st.storage.getItem ("tracking_data_" ++ u)).getD "[]")) :
    (submitCatch st u m now).result = .alreadyTakenLocal ∧
    (submitCatch st u m now).state.userId = st.userId ∧
    (submitCatch st u m now).state.userIdSet = st.userIdSet := by
  unfold submitCatch
  dsimp only
  simp only [AppState.debug, mk_storage]
  rw [if_pos h]
  exact ⟨rfl, rfl, rfl⟩

/-- When the local history is empty, the catch-block accepts the identity
in offline mode with a warning status. -/
theorem submitCatch_offline_accept (st : AppState) (u m now : String)
    (h : jsonArrayLen ((st.storage.getItem ("tracking_data_" ++ u)).getD "[]") = 0) :
    (submitCatch st u m now).result = .acceptedOffline ∧
    (submitCatch st u m now).state.userId = some u ∧
    (submitCatch st u m now).state.userIdSet = true ∧
    (submitCatch st u m now).state.isInitialized = true ∧
    (submitCatch st u m now).state.statusType = .warning ∧
    (submitCatch st u m now).state.statusMsg = "Offline mode - Ready to track" := by
  unfold submitCatch
  dsimp only
  simp only [AppState.debug, mk_storage]
  rw [if_neg (by rw [h]; exact lt_irrefl 0)]
  exact ⟨rfl, rfl, rfl, rfl, rfl, rfl⟩

/-- A well-formed candidate passes validation; a thrown network error
routes `submitUserId` into the catch-block. -/
theorem submit_valid_networkError (st : AppState) (u now m : String)
    (h0 : u ≠ "") (h1 : matchesIdRegex u = true)
    (h2 : 3 ≤ u.length) (h3 : u.length ≤ 50) :
    submitUserId st u (.networkError m) now
      = submitCatch ((st.debug (s!"Checking User ID availability: {u}")
          .info now).setStatus "Checking User ID..." .info) u m now := by
  unfold submitUserId
  rw [if_neg h0, if_neg (by simp [h1]; omega)]

/-- A malformed 2xx body also routes into the catch-block (the
`response.json()` call throws inside the try). -/
theorem submit_valid_malformed (st : AppState) (u now : String)
    (h0 : u ≠ "") (h1 : matchesIdRegex u = true)
    (h2 : 3 ≤ u.length) (h3 : u.length ≤ 50) :
    submitUserId st u (.ok .malformed) now
      = submitCatch ((st.debug (s!"Checking User ID availability: {u}")
          .info now).setStatus "Checking User ID..." .info) u
          "Unexpected token in JSON" now := by
  unfold submitUserId
  rw [if_neg h0, if_neg (by simp [h1]; omega)]

/-- A non-2xx status does NOT throw: it routes into the try-block
acceptance, skipping any local check. -/
theorem submit_valid_badStatus (st : AppState) (u now : String) (status : Nat)
    (h0 : u ≠ "") (h1 : matchesIdRegex u = true)
    (h2 : 3 ≤ u.length) (h3 : u.length ≤ 50) :
    submitUserId st u (.badStatus status) now
      = submitAcceptOnline ((st.debug (s!"Checking User ID availability: {u}")
          .info now).setStatus "Checking User ID..." .info) u now := by
  unfold submitUserId
  rw [if_neg h0, if_neg (by simp [h1]; omega)]

/-- The try-block acceptance yields the online-success result/status. -/
theorem submitAcceptOnline_spec (st : AppState) (u now : String) :
    (submitAcceptOnline st u now).result = .acceptedOnline ∧
    (submitAcceptOnline st u now).state.userId = some u ∧
    (submitAcceptOnline st u now).state.userIdSet = true ∧
    (submitAcceptOnline st u now).state.statusType = .success :=
  ⟨rfl, rfl, rfl, rfl⟩

/-- C2 as stated is false on a non-2xx history status: with a non-empty
local `tracking_data_abc`, a 500 response still accepts the identity via
the normal online path (success status), instead of the claimed
local-only check failing with AlreadyTaken. -/
theorem C2_counterexample_badStatus_accepts :
    (submitUserId (initApp [("tracking_data_abc", "[1]")] "t0") "abc"
        (.badStatus 500) "t1").result = .acceptedOnline ∧
    (submitUserId (initApp [("tracking_data_abc", "[1]")] "t0") "abc"
        (.badStatus 500) "t1").state.userIdSet = true ∧
    (submitUserId (initApp [("tracking_data_abc", "[1]")] "t0") "abc"
        (.badStatus 500) "t1").state.statusType = .success := by
  decide

/-- C2 (amended): only a thrown lookup — network error or malformed 2xx
body — degrades `submitUserId` to the local-only check: non-empty local
`tracking_data_{candidate}` fails with AlreadyTaken (local) and leaves
the identity unset; empty local history accepts in offline mode with a
distinct warning status.  A non-2xx response status instead accepts the
identity through the normal online path (success status) without
consulting local history. -/
theorem C2_local_fallback_on_thrown_lookup (st : AppState)
    (userId now : String) (h0 : userId ≠ "")
    (h1 : matchesIdRegex userId = true)
    (h2 : 3 ≤ userId.length) (h3 : userId.length ≤ 50)
    (r : HistoryOutcome)
    (hthrow : r = .ok .malformed ∨ ∃ m, r = .networkError m) :
    (0 < jsonArrayLen ((st.storage.getItem
          ("tracking_data_" ++ userId)).getD "[]") →
        (submitUserId st userId r now).result = .alreadyTakenLocal ∧
        (submitUserId st userId r now).state.userId = st.userId ∧
        (submitUserId st userId r now).state.userIdSet = st.userIdSet) ∧
    (jsonArrayLen ((st.storage.getItem
          ("tracking_data_" ++ userId)).getD "[]") = 0 →
        (submitUserId st userId r now).result = .acceptedOffline ∧
        (submitUserId st userId r now).state.userId = some userId ∧
        (submitUserId st userId r now).state.userIdSet = true ∧
        (submitUserId st userId r now).state.statusType = .warning ∧
        (submitUserId st userId r now).state.statusMsg
          = "Offline mode - Ready to track") ∧
    (∀ status : Nat,
        (submitUserId st userId (.badStatus status) now).result
          = .acceptedOnline ∧
        (submitUserId st userId (.badStatus status) now).state.statusType
          = .success) := by
  have hb : ∀ status : Nat,
      (submitUserId st userId (.badStatus status) now).result
        = .acceptedOnline ∧
      (submitUserId st userId (.badStatus status) now).state.statusType
        = .success := by
    intro status
    rw [submit_valid_badStatus st userId now status h0 h1 h2 h3]
    exact ⟨(submitAcceptOnline_spec _ userId now).1,
      (submitAcceptOnline_spec _ userId now).2.2.2⟩
  rcases hthrow with hm | ⟨m, hm⟩ <;> subst hm
  · rw [submit_valid_malformed st userId now h0 h1 h2 h3]
    set st' := (st.debug (s!"Checking User ID availability: {userId}")
        .info now).setStatus "Checking User ID..." .info with hst'
    have hsto : st'.storage = st.storage := rfl
    refine ⟨fun hl => ?_, fun hl => ?_, hb⟩
    · obtain ⟨g1, g2, g3⟩ := submitCatch_local_taken st' userId
        "Unexpected token in JSON" now (by rw [hsto]; exact hl)
      exact ⟨g1, g2.trans (show st'.userId = st.userId from rfl),
        g3.trans (show st'.userIdSet = st.userIdSet from rfl)⟩
    · obtain ⟨g1, g2, g3, _, g5, g6⟩ := submitCatch_offline_accept st' userId
        "Unexpected token in JSON" now (by rw [hsto]; exact hl)
      exact ⟨g1, g2, g3, g5, g6⟩
  · rw [submit_valid_networkError st userId now m h0 h1 h2 h3]
    set st' := (st.debug (s!"Checking User ID availability: {userId}")
        .info now).setStatus "Checking User ID..." .info with hst'
    have hsto : st'.storage = st.storage := rfl
    refine ⟨fun hl => ?_, fun hl => ?_, hb⟩
    · obtain ⟨g1, g2, g3⟩ := submitCatch_local_taken st' userId m now
        (by rw [hsto]; exact hl)
      exact ⟨g1, g2.trans (show st'.userId = st.userId from rfl),
        g3.trans (show st'.userIdSet = st.userIdSet from rfl)⟩
    · obtain ⟨g1, g2, g3, _, g5, g6⟩ := submitCatch_offline_accept st' userId
        m now (by rw [hsto]; exact hl)
      exact ⟨g1, g2, g3, g5, g6⟩

theorem C2_witness :
    (submitUserId (initApp [("tracking_data_abc", "[1]")] "t0") "abc"
        (.networkError "down") "t1").result = .alreadyTakenLocal ∧
    (submitUserId (initApp [] "t0") "abc"
        (.networkError "down") "t1").result = .acceptedOffline ∧
    (submitUserId (initApp [] "t0") "abc"
        (.networkError "down") "t1").state.statusType = .warning := by
  refine ⟨((C2_local_fallback_on_thrown_lookup
      (initApp [("tracking_data_abc", "[1]")] "t0") "abc" "t1"
      (by decide) (by decide) (by decide) (by decide)
      (.networkError "down") (Or.inr ⟨"down", rfl⟩)).1 (by decide)).1,
    ((C2_local_fallback_on_thrown_lookup (initApp [] "t0") "abc" "t1"
      (by decide) (by decide) (by decide) (by decide)
      (.networkError "down") (Or.inr ⟨"down", rfl⟩)).2.1 (by decide)).1,
    ((C2_local_fallback_on_thrown_lookup (initApp [] "t0") "abc" "t1"
      (by decide) (by decide) (by decide) (by decide)
      (.networkError "down") (Or.inr ⟨"down", rfl⟩)).2.1 (by decide)).2.2.2.1⟩

/-- C3: contrary to the claim (and to the invariant stated by the spec),
`submitUserId` has no guard on an already-accepted identity: after
`abc` is accepted, submitting `abc` again under identical conditions is
accepted again (not AlreadyTaken), and submitting `xyz` replaces the
session identity. -/
theorem C3_resubmission_not_prevented :
    (submitUserId (initApp [] "t0") "abc" (.ok (.arr 0)) "t1").state.userIdSet
        = true ∧
    (submitUserId (initApp [] "t0") "abc" (.ok (.arr 0)) "t1").state.userId
        = some "abc" ∧
    (submitUserId (submitUserId (initApp [] "t0") "abc" (.ok (.arr 0)) "t1").state
        "abc" (.ok (.arr 0)) "t2").result = .acceptedOnline ∧
    (submitUserId (submitUserId (initApp [] "t0") "abc" (.ok (.arr 0)) "t1").state
        "xyz" (.ok (.arr 0)) "t2").state.userId = some "xyz" := by
  decide
